import Mathlib

/-!
# Skillet: height-dependent reflections and the block pipeline

A shallow embedding of `Source/PluginProcessor.h` and `Source/PluginProcessor.cpp`.

* Samples, delays, gains and sample rates (`float` / `double` in the source) are
  idealised as elements of a linear ordered field `K` with a floor function;
  rounding is not modelled.  Every definition is computable for `K = ℚ`.
* The JUCE classes the plugin calls into (`dsp::DelayLine`, `dsp::IIR`,
  `dsp::ProcessorDuplicator`) are not part of the repository.  Their internal
  state is kept abstract (`S` for the delay memory, `F` for the filter memory,
  `C` for a coefficient set) and their operations are the fields of `Juce`.
* `std::pow (10.0, x)` is the parameter `pow10`.
-/

set_option linter.dupNamespace false

namespace Skillet

variable {K S C F : Type}

/-! ## Audio blocks -/

/-- Planar audio data: one list of samples per channel. -/
abbrev AudioBlock (K : Type) := List (List K)

/-- Models `AudioBlock::getNumChannels`. -/
def getNumChannels (b : AudioBlock K) : Nat := b.length

/-- Models `AudioBlock::getNumSamples`: every channel of a block has the same length,
the length of the first channel. -/
def getNumSamples (b : AudioBlock K) : Nat :=
  match b with
  | [] => 0
  | row :: _ => row.length

/-- Read `ptr[sample]` of channel `channel`. -/
def getSample [Zero K] (b : AudioBlock K) (channel sample : Nat) : K :=
  (b.getD channel []).getD sample 0

/-- Write `ptr[sample] = v` of channel `channel`. -/
def setSample (b : AudioBlock K) (channel sample : Nat) (v : K) : AudioBlock K :=
  b.set channel ((b.getD channel []).set sample v)

/-- Models `AudioBuffer::setSize (numChannels, numSamples)`: a fresh buffer of the
given dimensions. -/
def AudioBuffer.setSize [Zero K] (numChannels numSamples : Nat) : AudioBlock K :=
  List.replicate numChannels (List.replicate numSamples 0)

/-- Models `AudioBuffer::clear (channel, 0, getNumSamples())`. -/
def AudioBuffer.clear [Zero K] (b : AudioBlock K) (channel : Nat) : AudioBlock K :=
  b.modify (fun row => row.map (fun _ => 0)) channel

/-- Models `AudioBlock::copyFrom (src)`: copies the samples of the channels and sample
positions the two blocks have in common. -/
def AudioBlock.copyFrom [Zero K] (dst src : AudioBlock K) : AudioBlock K :=
  let maxChannels := min (getNumChannels src) (getNumChannels dst)
  let n := min (getNumSamples src) (getNumSamples dst)
  (List.range maxChannels).foldl (fun out channel =>
    (List.range n).foldl (fun out sample =>
      setSample out channel sample (getSample src channel sample)) out) dst

/-- A block of `numChannels` channels of `numSamples` samples each. -/
def IsBlock (numChannels numSamples : Nat) (b : AudioBlock K) : Prop :=
  b.length = numChannels ∧ ∀ row ∈ b, row.length = numSamples

instance (numChannels numSamples : Nat) (b : AudioBlock K) :
    Decidable (IsBlock numChannels numSamples b) := by
  unfold IsBlock
  infer_instance

/-! ## The JUCE interface -/

/-- Models `juce::dsp::ProcessSpec`. -/
structure ProcessSpec (K : Type) where
  sampleRate : K
  maximumBlockSize : Nat
  numChannels : Nat

/-- Models `juce::dsp::ProcessContextReplacing` / `ProcessContextNonReplacing`.  For a
replacing context the input block and the output block are the same memory
(`usesSeparateInputAndOutputBlocks = false`). -/
structure ProcessContext (K : Type) where
  inputBlock : AudioBlock K
  outputBlock : AudioBlock K
  isBypassed : Bool
  usesSeparateInputAndOutputBlocks : Bool

/-- The context `dsp::ProcessContextReplacing<float> context{ block }`. -/
def ProcessContextReplacing (block : AudioBlock K) : ProcessContext K :=
  { inputBlock := block, outputBlock := block, isBypassed := false,
    usesSeparateInputAndOutputBlocks := false }

/-- Models `juce::dsp::DelayLine<float>` as the plugin sees it: the argument last given
to `setMaximumDelayInSamples` (0 for a default-constructed line), the argument
last given to `setDelay`, and the sample memory. -/
structure DelayLine (K S : Type) where
  maximumDelayInSamples : Int
  delay : K
  mem : S

/-- Models `juce::dsp::ProcessorDuplicator<IIR::Filter, IIR::Coefficients>`: the shared
coefficient set `state` and the per-channel filter memory. -/
structure Duplicator (C F : Type) where
  state : C
  memory : F

/-- The operations of the JUCE DSP module used by the plugin. -/
structure Juce (K S C F : Type) where
  delayInit : S
  delayResize : Int → DelayLine K S → S
  delayPrepare : ProcessSpec K → DelayLine K S → S
  delayPush : DelayLine K S → Nat → K → S
  delayPop : DelayLine K S → Nat → S × K
  defaultCoefficients : C
  filterInit : F
  filterPrepare : ProcessSpec K → Duplicator C F → F
  filterProcess : Duplicator C F → AudioBlock K → F × AudioBlock K
  makeLowPass : K → K → K → C
  makeHighPass : K → K → K → C
  makePeakFilter : K → K → K → K → C
  makeHighShelf : K → K → K → K → C

/-- Models `DelayLine()`, which delegates to `DelayLine (0)`. -/
def DelayLine.new [Zero K] (J : Juce K S C F) : DelayLine K S :=
  { maximumDelayInSamples := 0, delay := 0, mem := J.delayInit }

/-- Models `DelayLine::setMaximumDelayInSamples (int)`. -/
def DelayLine.setMaximumDelayInSamples (J : Juce K S C F) (d : DelayLine K S) (n : Int) :
    DelayLine K S :=
  { d with maximumDelayInSamples := n, mem := J.delayResize n d }

/-- Models `DelayLine::setDelay`. -/
def DelayLine.setDelay (d : DelayLine K S) (newDelayInSamples : K) : DelayLine K S :=
  { d with delay := newDelayInSamples }

/-- Models `DelayLine::prepare`. -/
def DelayLine.prepare (J : Juce K S C F) (d : DelayLine K S) (spec : ProcessSpec K) :
    DelayLine K S :=
  { d with mem := J.delayPrepare spec d }

/-- Models `DelayLine::pushSample (channel, sample)`. -/
def DelayLine.pushSample (J : Juce K S C F) (d : DelayLine K S) (channel : Nat) (x : K) :
    DelayLine K S :=
  { d with mem := J.delayPush d channel x }

/-- Models `DelayLine::popSample (channel)`. -/
def DelayLine.popSample (J : Juce K S C F) (d : DelayLine K S) (channel : Nat) :
    DelayLine K S × K :=
  ({ d with mem := (J.delayPop d channel).1 }, (J.delayPop d channel).2)

/-- Models `ProcessorDuplicator::prepare`. -/
def Duplicator.prepare (J : Juce K S C F) (f : Duplicator C F) (spec : ProcessSpec K) :
    Duplicator C F :=
  { f with memory := J.filterPrepare spec f }

/-- Models `ProcessorDuplicator::process` on a replacing context: the new filter and
the filtered block. -/
def Duplicator.process (J : Juce K S C F) (f : Duplicator C F) (block : AudioBlock K) :
    Duplicator C F × AudioBlock K :=
  ({ f with memory := (J.filterProcess f block).1 }, (J.filterProcess f block).2)

/-- The constant `juce::Decibels::defaultMinusInfinitydB`. -/
def defaultMinusInfinitydB : Int := -100

/-- Models `juce::Decibels::decibelsToGain (decibels)` with the default
`minusInfinityDb`:
`decibels > minusInfinityDb ? std::pow (10.0, decibels * 0.05) : 0`. -/
def decibelsToGain [LinearOrderedField K] (pow10 : K → K) (decibels : K) : K :=
  if decibels > (defaultMinusInfinitydB : K) then pow10 (decibels * 0.05) else 0

/-- Conversion of a `double` to `int` (truncation toward zero), as applied to the
argument of `setMaximumDelayInSamples (int)`. -/
def truncToInt [LinearOrderedField K] [FloorRing K] (x : K) : Int :=
  if 0 ≤ x then Int.floor x else Int.ceil x

/-! ## Bounce -/

/-- The data members of `class Bounce`. -/
structure Bounce (K S : Type) where
  defaultDelayMS : K
  minDelayMS : K
  delayMS : K
  sampleRate : K
  blockSize : Int
  bounceVolume : K
  wet : DelayLine K S
  wetBuffer : AudioBlock K

/-- Models `Bounce::Bounce (defaultDelay, minDelay, currSampleRate)`. -/
def Bounce.Bounce [Zero K] (J : Juce K S C F) (defaultDelay minDelay currSampleRate : K) :
    Skillet.Bounce K S :=
  { defaultDelayMS := defaultDelay
    minDelayMS := minDelay
    delayMS := defaultDelay
    sampleRate := currSampleRate
    bounceVolume := 0
    blockSize := 0
    wet := DelayLine.new J
    wetBuffer := [] }

/-- Models `Bounce::calcNumSamples`. -/
def Bounce.calcNumSamples [LinearOrderedField K] (b : Skillet.Bounce K S) (delay : K) : K :=
  delay * 0.001 * b.sampleRate

/-- Models `Bounce::getMaxDelaySamples`. -/
def Bounce.getMaxDelaySamples [LinearOrderedField K] (b : Skillet.Bounce K S) : K :=
  b.calcNumSamples (b.defaultDelayMS * 2 - b.minDelayMS)

/-- Models `Bounce::prepare`. -/
def Bounce.prepare [LinearOrderedField K] [FloorRing K] (J : Juce K S C F)
    (b : Skillet.Bounce K S) (spec : ProcessSpec K) : Skillet.Bounce K S :=
  let b1 : Skillet.Bounce K S :=
    if b.sampleRate ≠ spec.sampleRate then
      let b0 : Skillet.Bounce K S := { b with sampleRate := spec.sampleRate }
      let w0 := b0.wet.setMaximumDelayInSamples J (truncToInt b0.getMaxDelaySamples)
      { b0 with wet := w0.setDelay (b0.calcNumSamples b0.delayMS) }
    else b
  let b2 : Skillet.Bounce K S :=
    if b1.blockSize ≠ (spec.maximumBlockSize : Int) then
      { b1 with
        blockSize := (spec.maximumBlockSize : Int)
        wetBuffer := AudioBuffer.setSize spec.numChannels spec.maximumBlockSize }
    else b1
  { b2 with wet := b2.wet.prepare J spec }

/-- Models `Bounce::setHeight (height, fromAbove)`. -/
def Bounce.setHeight [LinearOrderedField K] (pow10 : K → K) (b : Skillet.Bounce K S)
    (height : K) (fromAbove : Bool) : Skillet.Bounce K S :=
  let direction : Int := 1 - (if fromAbove then 1 else 0) * 2
  let b1 : Skillet.Bounce K S :=
    { b with delayMS := (direction : K) * height * (b.defaultDelayMS - b.minDelayMS)
                          + b.defaultDelayMS }
  let b2 : Skillet.Bounce K S := { b1 with wet := b1.wet.setDelay (b1.calcNumSamples b1.delayMS) }
  { b2 with bounceVolume := decibelsToGain pow10 (-50.0 * (height + 1.0) - 6.0) }

/-- Models `Bounce::pushSamples (context)`. -/
def Bounce.pushSamples [Zero K] (J : Juce K S C F) (b : Skillet.Bounce K S)
    (context : ProcessContext K) : Skillet.Bounce K S :=
  let inputBlock := context.inputBlock
  let numChannels := getNumChannels inputBlock
  let numSamples := getNumSamples inputBlock
  (List.range numChannels).foldl (fun b channel =>
    (List.range numSamples).foldl (fun b sample =>
      let w1 := b.wet.pushSample J channel (getSample inputBlock channel sample)
      let r := w1.popSample J channel
      { b with wet := r.1, wetBuffer := setSample b.wetBuffer channel sample r.2 }) b) b

/-- Models `Bounce::popSamples (context)`: the contents of the output block afterwards.
With a replacing context `inChannelPtr` and `outChannelPtr` are the same
pointer, so the input sample is read from the block being written. -/
def Bounce.popSamples [LinearOrderedField K] (b : Skillet.Bounce K S)
    (context : ProcessContext K) : AudioBlock K :=
  let inputBlock := context.inputBlock
  let outputBlock := context.outputBlock
  let numChannels := getNumChannels outputBlock
  let numSamples := getNumSamples outputBlock
  if context.isBypassed then
    outputBlock.copyFrom inputBlock
  else
    (List.range numChannels).foldl (fun out channel =>
      (List.range numSamples).foldl (fun out sample =>
        let inSample :=
          if context.usesSeparateInputAndOutputBlocks then getSample inputBlock channel sample
          else getSample out channel sample
        setSample out channel sample
          (inSample + b.bounceVolume * getSample b.wetBuffer channel sample)) out) outputBlock

/-! ## FilteredBounce -/

/-- The data members of `class FilteredBounce : public Bounce`.  The member
`sampleRate` is the one declared in `FilteredBounce`, distinct from the private
`Bounce::sampleRate`. -/
structure FilteredBounce (K S C F : Type) where
  toBounce : Bounce K S
  lpfFreq : K
  hpfFreq : K
  Q : K
  sampleRate : K
  lpf : Duplicator C F
  hpf : Duplicator C F

/-- Models `FilteredBounce::FilteredBounce`. -/
def FilteredBounce.FilteredBounce [Zero K] (J : Juce K S C F)
    (defaultDelay minDelay currSampleRate highpassFreq lowpassFreq res : K) :
    Skillet.FilteredBounce K S C F :=
  { toBounce := Bounce.Bounce J defaultDelay minDelay currSampleRate
    lpfFreq := lowpassFreq
    hpfFreq := highpassFreq
    Q := res
    sampleRate := currSampleRate
    lpf := { state := J.makeLowPass currSampleRate lowpassFreq res, memory := J.filterInit }
    hpf := { state := J.makeHighPass currSampleRate highpassFreq res, memory := J.filterInit } }

/-- Models `FilteredBounce::prepare`. -/
def FilteredBounce.prepare [LinearOrderedField K] [FloorRing K] (J : Juce K S C F)
    (fb : Skillet.FilteredBounce K S C F) (spec : ProcessSpec K) :
    Skillet.FilteredBounce K S C F :=
  let fb1 : Skillet.FilteredBounce K S C F := { fb with toBounce := fb.toBounce.prepare J spec }
  let fb2 : Skillet.FilteredBounce K S C F :=
    if fb1.sampleRate ≠ spec.sampleRate then
      { fb1 with
        sampleRate := spec.sampleRate
        lpf := { fb1.lpf with state := J.makeLowPass spec.sampleRate fb1.lpfFreq fb1.Q }
        hpf := { fb1.hpf with state := J.makeHighPass spec.sampleRate fb1.hpfFreq fb1.Q } }
    else fb1
  let fb3 : Skillet.FilteredBounce K S C F := { fb2 with lpf := fb2.lpf.prepare J spec }
  { fb3 with hpf := fb3.hpf.prepare J spec }

/-- Models `FilteredBounce::filter`: `lpf.process (context)` and then
`hpf.process (context)` on a replacing context over `wetBuffer`. -/
def FilteredBounce.filter (J : Juce K S C F) (fb : Skillet.FilteredBounce K S C F) :
    Skillet.FilteredBounce K S C F :=
  let wetBlock := fb.toBounce.wetBuffer
  let r1 := fb.lpf.process J wetBlock
  let r2 := fb.hpf.process J r1.2
  { fb with lpf := r1.1, hpf := r2.1, toBounce := { fb.toBounce with wetBuffer := r2.2 } }

/-! ## SkilletAudioProcessor -/

/-- Models `struct PinnaBand`. -/
structure PinnaBand (K C F : Type) where
  freq : K
  Q : K
  gainDB : K
  filter : Duplicator C F

/-- The aggregate `{ freq, Q, gainDB }` pushed onto `pFilter`: the filter member is
default-constructed. -/
def PinnaBand.init (J : Juce K S C F) (freq Q gainDB : K) : PinnaBand K C F :=
  { freq := freq, Q := Q, gainDB := gainDB,
    filter := { state := J.defaultCoefficients, memory := J.filterInit } }

/-- The data members of `class SkilletAudioProcessor`, with the channel counts of
the `juce::AudioProcessor` base class and the value held by the `height`
parameter. -/
structure SkilletAudioProcessor (K S C F : Type) where
  totalNumInputChannels : Nat
  totalNumOutputChannels : Nat
  height : K
  currSampleRate : K
  blockSize : Int
  pFilter : List (PinnaBand K C F)
  floorBounce : Bounce K S
  chestBounce : FilteredBounce K S C F

/-- Models `SkilletAudioProcessor::calcFilterCoefficients`. -/
def SkilletAudioProcessor.calcFilterCoefficients [LinearOrderedField K] (pow10 : K → K)
    (J : Juce K S C F) (p : Skillet.SkilletAudioProcessor K S C F) :
    Skillet.SkilletAudioProcessor K S C F :=
  let heightVal := p.height
  let pf0 := p.pFilter.modify (fun band =>
    { band with filter := { band.filter with
        state := J.makePeakFilter p.currSampleRate band.freq band.Q
                   (decibelsToGain pow10 (heightVal * band.gainDB)) } }) 0
  let pf1 := pf0.modify (fun band =>
    { band with filter := { band.filter with
        state := J.makePeakFilter p.currSampleRate band.freq band.Q
                   (decibelsToGain pow10 (heightVal * band.gainDB)) } }) 1
  let pf2 := pf1.modify (fun band =>
    { band with filter := { band.filter with
        state := J.makeHighShelf p.currSampleRate band.freq band.Q
                   (decibelsToGain pow10 (heightVal * band.gainDB)) } }) 2
  { p with pFilter := pf2 }

/-- Models `SkilletAudioProcessor::SkilletAudioProcessor`: stereo input and output
buses, the member initialisers, the `height` parameter with default value 0,
the three pinna bands and the final call of `calcFilterCoefficients`. -/
def SkilletAudioProcessor.SkilletAudioProcessor [LinearOrderedField K] (pow10 : K → K)
    (J : Juce K S C F) : Skillet.SkilletAudioProcessor K S C F :=
  let currSampleRate : K := 44100
  let p : Skillet.SkilletAudioProcessor K S C F :=
    { totalNumInputChannels := 2
      totalNumOutputChannels := 2
      height := 0.0
      currSampleRate := currSampleRate
      blockSize := 0
      pFilter := [PinnaBand.init J 8000 1.94 9.76, PinnaBand.init J 10000 15.3 4.83,
                  PinnaBand.init J 3450 0.71 2.6]
      floorBounce := Bounce.Bounce J 10.3 0.1 currSampleRate
      chestBounce := FilteredBounce.FilteredBounce J 2.0 0.0 currSampleRate 760 2600 0.707 }
  p.calcFilterCoefficients pow10 J

/-- Models `SkilletAudioProcessor::setHeight`. -/
def SkilletAudioProcessor.setHeight [LinearOrderedField K] (pow10 : K → K)
    (J : Juce K S C F) (p : Skillet.SkilletAudioProcessor K S C F) :
    Skillet.SkilletAudioProcessor K S C F :=
  let p1 := p.calcFilterCoefficients pow10 J
  let heightVal := p1.height
  let p2 : Skillet.SkilletAudioProcessor K S C F :=
    { p1 with floorBounce := p1.floorBounce.setHeight pow10 heightVal false }
  { p2 with chestBounce :=
      { p2.chestBounce with toBounce := p2.chestBounce.toBounce.setHeight pow10 heightVal true } }

/-- Assignment `*height = v` to the parameter by the host, the slider or
`setStateInformation`. -/
def SkilletAudioProcessor.withHeight (p : Skillet.SkilletAudioProcessor K S C F) (v : K) :
    Skillet.SkilletAudioProcessor K S C F :=
  { p with height := v }

/-- Models `SkilletAudioProcessor::prepareToPlay`. -/
def SkilletAudioProcessor.prepareToPlay [LinearOrderedField K] [FloorRing K] (pow10 : K → K)
    (J : Juce K S C F) (p : Skillet.SkilletAudioProcessor K S C F) (sampleRate : K)
    (samplesPerBlock : Nat) : Skillet.SkilletAudioProcessor K S C F :=
  let p1 : Skillet.SkilletAudioProcessor K S C F :=
    if p.currSampleRate ≠ sampleRate then
      SkilletAudioProcessor.calcFilterCoefficients pow10 J { p with currSampleRate := sampleRate }
    else p
  let spec : ProcessSpec K :=
    { sampleRate := sampleRate, maximumBlockSize := samplesPerBlock,
      numChannels := p1.totalNumOutputChannels }
  let p2 : Skillet.SkilletAudioProcessor K S C F :=
    if (samplesPerBlock : Int) ≠ p1.blockSize then { p1 with blockSize := samplesPerBlock } else p1
  let p3 : Skillet.SkilletAudioProcessor K S C F :=
    { p2 with pFilter := p2.pFilter.map (fun band =>
        { band with filter := band.filter.prepare J spec }) }
  let p4 : Skillet.SkilletAudioProcessor K S C F :=
    { p3 with floorBounce := p3.floorBounce.prepare J spec }
  { p4 with chestBounce := p4.chestBounce.prepare J spec }

/-- The loop `for (i < pFilter.size()) pFilter[i].filter.process (context)`: the
bands with their updated filters and the block after the last band. -/
def processPinna (J : Juce K S C F) :
    List (PinnaBand K C F) → AudioBlock K → List (PinnaBand K C F) × AudioBlock K
  | [], block => ([], block)
  | band :: rest, block =>
    let r := band.filter.process J block
    let t := processPinna J rest r.2
    ({ band with filter := r.1 } :: t.1, t.2)

/-- The loop `for (i = totalNumInputChannels; i < totalNumOutputChannels; ++i)
buffer.clear (i, 0, buffer.getNumSamples())`. -/
def clearExtraChannels [Zero K] (totalNumInputChannels totalNumOutputChannels : Nat)
    (buffer : AudioBlock K) : AudioBlock K :=
  (List.range (totalNumOutputChannels - totalNumInputChannels)).foldl
    (fun buf k => AudioBuffer.clear buf (totalNumInputChannels + k)) buffer

/-- Models `SkilletAudioProcessor::processBlock`: the processor afterwards and the
contents of `buffer` afterwards. -/
def SkilletAudioProcessor.processBlock [LinearOrderedField K] (J : Juce K S C F)
    (p : Skillet.SkilletAudioProcessor K S C F) (buffer : AudioBlock K) :
    Skillet.SkilletAudioProcessor K S C F × AudioBlock K :=
  let buffer0 := clearExtraChannels p.totalNumInputChannels p.totalNumOutputChannels buffer
  let r := processPinna J p.pFilter buffer0
  let block1 := r.2
  let floor1 := p.floorBounce.pushSamples J (ProcessContextReplacing block1)
  let chest1 : Skillet.FilteredBounce K S C F :=
    { p.chestBounce with
      toBounce := p.chestBounce.toBounce.pushSamples J (ProcessContextReplacing block1) }
  let chest2 := chest1.filter J
  let block2 := floor1.popSamples (ProcessContextReplacing block1)
  let block3 := chest2.toBounce.popSamples (ProcessContextReplacing block2)
  ({ p with pFilter := r.1, floorBounce := floor1, chestBounce := chest2 }, block3)

/-! ## Concrete inputs -/

/-- A small executable instance of the JUCE interface, for evaluating the
definitions on concrete inputs: a one-sample delay, and filters that double
every sample (coefficient set `true`) or add one to it (coefficient set
`false`). -/
def toyJuce (K : Type) [LinearOrderedField K] : Juce K (K × K) Bool Unit :=
  { delayInit := (0, 0)
    delayResize := fun _ _ => (0, 0)
    delayPrepare := fun _ d => d.mem
    delayPush := fun d _ x => (d.mem.2, x)
    delayPop := fun d _ => (d.mem, d.mem.1)
    defaultCoefficients := false
    filterInit := ()
    filterPrepare := fun _ _ => ()
    filterProcess := fun f block =>
      ((), if f.state then block.map (List.map (fun x => x * 2))
           else block.map (List.map (fun x => x + 1)))
    makeLowPass := fun _ _ _ => true
    makeHighPass := fun _ _ _ => false
    makePeakFilter := fun _ _ _ _ => false
    makeHighShelf := fun _ _ _ _ => true }

/-- The constant 1/2 standing in for `std::pow (10.0, x)` on concrete rational
inputs. -/
def examplePow10 : ℚ → ℚ := fun _ => 1 / 2

/-- The engine's chest reflection as constructed, holding the one-sample wet
buffer `[[1]]`. -/
def exampleChest : FilteredBounce ℚ (ℚ × ℚ) Bool Unit :=
  { FilteredBounce.FilteredBounce (toyJuce ℚ) 2.0 0.0 44100 760 2600 0.707 with
    toBounce := { Bounce.Bounce (toyJuce ℚ) 2.0 0.0 44100 with wetBuffer := [[1]] } }

/-- The engine after construction, `setHeight` at the default height 0 and
`prepareToPlay (48000, 2)`, over `toyJuce ℚ` and `examplePow10`. -/
def exampleProcessor : SkilletAudioProcessor ℚ (ℚ × ℚ) Bool Unit :=
  ((SkilletAudioProcessor.SkilletAudioProcessor examplePow10 (toyJuce ℚ)).setHeight
      examplePow10 (toyJuce ℚ)).prepareToPlay examplePow10 (toyJuce ℚ) 48000 2

/-! ## Blocks and the sample loops -/

theorem setSample_of_length_le {o : AudioBlock K} {ch : Nat} (h : o.length ≤ ch) (t : Nat)
    (v : K) : setSample o ch t v = o := by
  unfold setSample
  exact List.set_eq_of_length_le h

theorem isBlock_row {nC nS : Nat} {o : AudioBlock K} (ho : IsBlock nC nS o) {c : Nat}
    (hc : c < nC) : (o.getD c []).length = nS := by
  obtain ⟨h1, h2⟩ := ho
  have hc2 : c < o.length := by omega
  rw [List.getD_eq_getElem _ _ hc2]
  exact h2 _ (List.getElem_mem _)

theorem isBlock_setSample {nC nS : Nat} {o : AudioBlock K} (ho : IsBlock nC nS o)
    (ch t : Nat) (v : K) : IsBlock nC nS (setSample o ch t v) := by
  by_cases hch : ch < o.length
  · have hrowlen := isBlock_row ho (by rw [← ho.1]; exact hch)
    obtain ⟨h1, h2⟩ := ho
    refine ⟨by simp [setSample, h1], ?_⟩
    intro row hrow
    unfold setSample at hrow
    rcases List.mem_or_eq_of_mem_set hrow with h | h
    · exact h2 row h
    · subst h
      rw [List.length_set]
      exact hrowlen
  · rw [setSample_of_length_le (by omega)]
    exact ho

theorem getSample_setSample [Zero K] {nC nS : Nat} {o : AudioBlock K} (ho : IsBlock nC nS o)
    (ch t : Nat) (v : K) {c s : Nat} (hc : c < nC) (hs : s < nS) :
    getSample (setSample o ch t v) c s = if c = ch ∧ s = t then v else getSample o c s := by
  have hlen := ho.1
  have hrow := isBlock_row ho hc
  unfold getSample setSample
  by_cases h1 : c = ch
  · subst h1
    have : (o.set c ((o.getD c []).set t v)).getD c [] = (o.getD c []).set t v := by
      rw [List.getD_eq_getElem?_getD, List.getElem?_set]
      simp [hlen, hc]
    rw [this]
    by_cases h2 : s = t
    · subst h2
      rw [List.getD_eq_getElem?_getD ((o.getD c []).set s v), List.getElem?_set, if_pos rfl,
        if_pos (by rw [hrow]; exact hs)]
      simp
    · have h3 : ¬ t = s := fun h => h2 h.symm
      simp [List.getD_eq_getElem?_getD, List.getElem?_set, h2, h3]
  · have h3 : ¬ ch = c := fun h => h1 h.symm
    simp [List.getD_eq_getElem?_getD, List.getElem?_set, h1, h3]

theorem block_ext [Zero K] {nC nS : Nat} {a b : AudioBlock K} (ha : IsBlock nC nS a)
    (hb : IsBlock nC nS b)
    (h : ∀ c s, c < nC → s < nS → getSample a c s = getSample b c s) : a = b := by
  apply List.ext_getElem (by rw [ha.1, hb.1])
  intro c hca hcb
  have hc : c < nC := by rw [← ha.1]; exact hca
  have hra := isBlock_row ha hc
  have hrb := isBlock_row hb hc
  rw [List.getD_eq_getElem _ _ hca] at hra
  rw [List.getD_eq_getElem _ _ hcb] at hrb
  apply List.ext_getElem (by rw [hra, hrb])
  intro s hsa hsb
  have hs : s < nS := by rw [← hra]; exact hsa
  have := h c s hc hs
  unfold getSample at this
  rw [List.getD_eq_getElem _ _ hca, List.getD_eq_getElem _ _ hcb,
    List.getD_eq_getElem _ _ hsa, List.getD_eq_getElem _ _ hsb] at this
  exact this

theorem getNumSamples_of_isBlock {nC nS : Nat} {o : AudioBlock K} (ho : IsBlock nC nS o)
    (h : 0 < nC) : getNumSamples o = nS := by
  obtain ⟨h1, h2⟩ := ho
  cases o with
  | nil => simp at h1; omega
  | cons row rest => exact h2 row (by simp)

/-- The inner `for (sample ...)` loop over one channel: every sample position below
`n` of channel `ch` receives `f` of its old value, everything else is unchanged. -/
theorem inner_loop_spec [Zero K] {nC nS : Nat} (f : K → Nat → Nat → K) (ch : Nat) (n : Nat)
    {o : AudioBlock K} (ho : IsBlock nC nS o) :
    IsBlock nC nS ((List.range n).foldl
      (fun out s => setSample out ch s (f (getSample out ch s) ch s)) o) ∧
    ∀ c s, c < nC → s < nS →
      getSample ((List.range n).foldl
        (fun out s => setSample out ch s (f (getSample out ch s) ch s)) o) c s
        = if c = ch ∧ s < n then f (getSample o c s) c s else getSample o c s := by
  induction n with
  | zero => simp [ho]
  | succ n ih =>
    obtain ⟨ih1, ih2⟩ := ih
    rw [List.range_succ, List.foldl_append]
    simp only [List.foldl_cons, List.foldl_nil]
    refine ⟨isBlock_setSample ih1 _ _ _, ?_⟩
    intro c s hc hs
    rw [getSample_setSample ih1 _ _ _ hc hs]
    by_cases h1 : c = ch ∧ s = n
    · obtain ⟨rfl, rfl⟩ := h1
      rw [ih2 c s hc hs]
      simp
    · rw [if_neg h1, ih2 c s hc hs]
      by_cases h2 : c = ch
      · have h3 : s ≠ n := fun h => h1 ⟨h2, h⟩
        have h4 : (s < n + 1) ↔ s < n := by omega
        simp [h2, h4]
      · simp [h2]

/-- The nested `for (channel ...) for (sample ...)` loop: the positions with
channel below `m` and sample below `n` receive `f` of their old value. -/
theorem nested_loop_spec [Zero K] {nC nS : Nat} (f : K → Nat → Nat → K) (m n : Nat)
    {o : AudioBlock K} (ho : IsBlock nC nS o) :
    IsBlock nC nS ((List.range m).foldl (fun out ch => (List.range n).foldl
      (fun out s => setSample out ch s (f (getSample out ch s) ch s)) out) o) ∧
    ∀ c s, c < nC → s < nS →
      getSample ((List.range m).foldl (fun out ch => (List.range n).foldl
        (fun out s => setSample out ch s (f (getSample out ch s) ch s)) out) o) c s
        = if c < m ∧ s < n then f (getSample o c s) c s else getSample o c s := by
  induction m with
  | zero => simp [ho]
  | succ m ih =>
    obtain ⟨ih1, ih2⟩ := ih
    rw [List.range_succ, List.foldl_append]
    simp only [List.foldl_cons, List.foldl_nil]
    obtain ⟨k1, k2⟩ := inner_loop_spec f m n ih1
    refine ⟨k1, ?_⟩
    intro c s hc hs
    rw [k2 c s hc hs, ih2 c s hc hs]
    by_cases h1 : c = m
    · subst h1
      simp
    · by_cases h2 : c < m
      · have : c < m + 1 := by omega
        simp [h1, h2, this]
      · have : ¬ c < m + 1 := by omega
        simp [h1, h2, this]

theorem range_two : List.range 2 = [0, 1] := rfl

/-! ## Field lemmas for `Bounce` -/

theorem setHeight_delayMS [LinearOrderedField K] (pow10 : K → K) (b : Bounce K S) (h : K)
    (invertDirection : Bool) :
    (b.setHeight pow10 h invertDirection).delayMS
        = (if invertDirection then -1 else 1) * h * (b.defaultDelayMS - b.minDelayMS)
          + b.defaultDelayMS := by
  cases invertDirection <;> simp [Bounce.setHeight]

theorem setHeight_bounceVolume [LinearOrderedField K] (pow10 : K → K) (b : Bounce K S) (h : K)
    (fa : Bool) :
    (b.setHeight pow10 h fa).bounceVolume = decibelsToGain pow10 (-50.0 * (h + 1.0) - 6.0) := by
  simp [Bounce.setHeight]

theorem setHeight_wet [LinearOrderedField K] (pow10 : K → K) (b : Bounce K S) (h : K)
    (fa : Bool) :
    (b.setHeight pow10 h fa).wet.delay
        = (b.setHeight pow10 h fa).delayMS * 0.001 * b.sampleRate ∧
      (b.setHeight pow10 h fa).wet.maximumDelayInSamples = b.wet.maximumDelayInSamples := by
  simp [Bounce.setHeight, Bounce.calcNumSamples, DelayLine.setDelay]

/-- The gain `decibelsToGain` over the reals: the power of ten above the
-100 dB floor, zero at or below it. -/
theorem decibelsToGain_real (h : ℝ) :
    decibelsToGain (fun x : ℝ => (10 : ℝ) ^ x) (-50.0 * (h + 1.0) - 6.0)
      = if h < 0.88 then (10 : ℝ) ^ ((-50 * (h + 1) - 6) / 20) else 0 := by
  unfold decibelsToGain defaultMinusInfinitydB
  by_cases hlt : h < 0.88
  · have : -50.0 * (h + 1.0) - 6.0 > (((-100 : Int)) : ℝ) := by
      push_cast; norm_num at hlt ⊢; linarith
    rw [if_pos this, if_pos hlt]
    have e : (-50.0 * (h + 1.0) - 6.0) * 0.05 = (-50 * (h + 1) - 6) / 20 := by norm_num; ring
    simp only [e]
  · have : ¬ (-50.0 * (h + 1.0) - 6.0 > (((-100 : Int)) : ℝ)) := by
      push_cast; norm_num at hlt ⊢; linarith
    rw [if_neg this, if_neg hlt]

theorem prepare_maximumDelayInSamples [LinearOrderedField K] [FloorRing K] (J : Juce K S C F)
    (b : Bounce K S) (spec : ProcessSpec K) :
    (b.prepare J spec).wet.maximumDelayInSamples
      = if b.sampleRate ≠ spec.sampleRate then
          truncToInt ((b.defaultDelayMS * 2 - b.minDelayMS) * 0.001 * spec.sampleRate)
        else b.wet.maximumDelayInSamples := by
  unfold Bounce.prepare
  by_cases h : b.sampleRate = spec.sampleRate <;>
    by_cases h2 : b.blockSize = spec.maximumBlockSize <;>
    simp [h, h2, DelayLine.prepare, DelayLine.setDelay, DelayLine.setMaximumDelayInSamples,
      Bounce.getMaxDelaySamples, Bounce.calcNumSamples]

theorem prepare_fields [LinearOrderedField K] [FloorRing K] (J : Juce K S C F)
    (b : Bounce K S) (spec : ProcessSpec K) :
    (b.prepare J spec).sampleRate = spec.sampleRate ∧
      (b.prepare J spec).defaultDelayMS = b.defaultDelayMS ∧
      (b.prepare J spec).minDelayMS = b.minDelayMS ∧
      (b.prepare J spec).delayMS = b.delayMS ∧
      (b.prepare J spec).bounceVolume = b.bounceVolume := by
  unfold Bounce.prepare
  by_cases h : b.sampleRate = spec.sampleRate <;>
    by_cases h2 : b.blockSize = spec.maximumBlockSize <;>
    simp [h, h2]

theorem prepare_wetBuffer [LinearOrderedField K] [FloorRing K] (J : Juce K S C F)
    (b : Bounce K S) (spec : ProcessSpec K) :
    (b.prepare J spec).wetBuffer
      = if b.blockSize ≠ (spec.maximumBlockSize : Int) then
          AudioBuffer.setSize spec.numChannels spec.maximumBlockSize
        else b.wetBuffer := by
  unfold Bounce.prepare
  by_cases h : b.sampleRate = spec.sampleRate <;>
    by_cases h2 : b.blockSize = spec.maximumBlockSize <;>
    simp [h, h2]

theorem foldl_bounceVolume {α : Type} (f : Bounce K S → α → Bounce K S)
    (hf : ∀ b x, (f b x).bounceVolume = b.bounceVolume) (l : List α) (b : Bounce K S) :
    (l.foldl f b).bounceVolume = b.bounceVolume := by
  induction l generalizing b with
  | nil => rfl
  | cons x xs ih => rw [List.foldl_cons, ih, hf]

theorem pushSamples_bounceVolume [Zero K] (J : Juce K S C F) (b : Bounce K S)
    (context : ProcessContext K) : (b.pushSamples J context).bounceVolume = b.bounceVolume := by
  unfold Bounce.pushSamples
  apply foldl_bounceVolume
  intro b channel
  apply foldl_bounceVolume
  intro b sample
  rfl

/-- The mix of `Bounce::popSamples` on a replacing, non-bypassed context. -/
theorem popSamples_replacing [LinearOrderedField K] (b : Bounce K S) {nC nS : Nat}
    {block : AudioBlock K} (hblock : IsBlock nC nS block) :
    IsBlock nC nS (b.popSamples (ProcessContextReplacing block)) ∧
    ∀ c s, c < nC → s < nS →
      getSample (b.popSamples (ProcessContextReplacing block)) c s
        = getSample block c s + b.bounceVolume * getSample b.wetBuffer c s := by
  unfold Bounce.popSamples ProcessContextReplacing
  simp only [Bool.false_eq_true, if_false]
  obtain ⟨k1, k2⟩ := nested_loop_spec
    (fun cur c s => cur + b.bounceVolume * getSample b.wetBuffer c s)
    (getNumChannels block) (getNumSamples block) hblock
  refine ⟨k1, ?_⟩
  intro c s hc hs
  rw [k2 c s hc hs]
  have h1 : c < getNumChannels block := by unfold getNumChannels; rw [hblock.1]; exact hc
  have h2 : s < getNumSamples block := by
    rw [getNumSamples_of_isBlock hblock (by omega)]; exact hs
  rw [if_pos ⟨h1, h2⟩]

/-! ## Field lemmas for `SkilletAudioProcessor` -/

theorem calcFilterCoefficients_bounces [LinearOrderedField K] (pow10 : K → K)
    (J : Juce K S C F) (p : SkilletAudioProcessor K S C F) :
    (p.calcFilterCoefficients pow10 J).floorBounce = p.floorBounce ∧
      (p.calcFilterCoefficients pow10 J).chestBounce = p.chestBounce ∧
      (p.calcFilterCoefficients pow10 J).height = p.height := by
  simp [SkilletAudioProcessor.calcFilterCoefficients]

theorem setHeight_fanout [LinearOrderedField K] (pow10 : K → K)
    (J : Juce K S C F) (p : SkilletAudioProcessor K S C F) :
    (p.setHeight pow10 J).floorBounce = p.floorBounce.setHeight pow10 p.height false ∧
      (p.setHeight pow10 J).chestBounce.toBounce
        = p.chestBounce.toBounce.setHeight pow10 p.height true := by
  simp [SkilletAudioProcessor.setHeight, calcFilterCoefficients_bounces]

/-- After `calcFilterCoefficients` the three bands hold, in this order, a peak, a
peak and a high-shelf coefficient set. -/
theorem calcFilterCoefficients_kinds [LinearOrderedField K] (pow10 : K → K)
    (J : Juce K S C F) (p : SkilletAudioProcessor K S C F) (band0 band1 band2 : PinnaBand K C F)
    (hbands : p.pFilter = [band0, band1, band2]) :
    (p.calcFilterCoefficients pow10 J).pFilter.map (fun band => band.filter.state)
      = [J.makePeakFilter p.currSampleRate band0.freq band0.Q
            (decibelsToGain pow10 (p.height * band0.gainDB)),
         J.makePeakFilter p.currSampleRate band1.freq band1.Q
            (decibelsToGain pow10 (p.height * band1.gainDB)),
         J.makeHighShelf p.currSampleRate band2.freq band2.Q
            (decibelsToGain pow10 (p.height * band2.gainDB))] := by
  simp [SkilletAudioProcessor.calcFilterCoefficients, hbands, List.modify, List.modifyHead]

theorem processPinna_three (J : Juce K S C F) (band0 band1 band2 : PinnaBand K C F)
    (block : AudioBlock K) :
    (processPinna J [band0, band1, band2] block).2
      = (band2.filter.process J (band1.filter.process J
          (band0.filter.process J block).2).2).2 := by
  simp [processPinna]

/-- With the engine's reflections prepared at 48000 Hz or 96000 Hz (a rate other
than the construction-time 44100 Hz), the sample delay set by `setHeight` for a
height in [-1, 1] lies between 0 and the capacity given to the delay line. -/
theorem capacity_sufficient_48000_96000 [LinearOrderedField K] [FloorRing K] (pow10 : K → K)
    (J : Juce K S C F) (sr h : K) (maximumBlockSize numChannels : Nat)
    (hsr : sr = 48000 ∨ sr = 96000) (hlo : -1 ≤ h) (hhi : h ≤ 1) :
    (0 ≤ (((Bounce.Bounce J 10.3 0.1 44100).prepare J
            ⟨sr, maximumBlockSize, numChannels⟩).setHeight pow10 h false).wet.delay ∧
      (((Bounce.Bounce J 10.3 0.1 44100).prepare J
            ⟨sr, maximumBlockSize, numChannels⟩).setHeight pow10 h false).wet.delay
        ≤ ((((Bounce.Bounce J 10.3 0.1 44100).prepare J
            ⟨sr, maximumBlockSize, numChannels⟩).setHeight pow10 h
              false).wet.maximumDelayInSamples : K)) ∧
    (0 ≤ (((Bounce.Bounce J 2.0 0.0 44100).prepare J
            ⟨sr, maximumBlockSize, numChannels⟩).setHeight pow10 h true).wet.delay ∧
      (((Bounce.Bounce J 2.0 0.0 44100).prepare J
            ⟨sr, maximumBlockSize, numChannels⟩).setHeight pow10 h true).wet.delay
        ≤ ((((Bounce.Bounce J 2.0 0.0 44100).prepare J
            ⟨sr, maximumBlockSize, numChannels⟩).setHeight pow10 h
              true).wet.maximumDelayInSamples : K)) := by
  rcases hsr with rfl | rfl
  · refine ⟨⟨?_, ?_⟩, ?_, ?_⟩
    · rw [(setHeight_wet _ _ _ _).1, setHeight_delayMS]
      simp only [prepare_fields]
      norm_num [Bounce.Bounce]
      linarith
    · rw [(setHeight_wet _ _ _ _).1, setHeight_delayMS, (setHeight_wet _ _ _ _).2,
        prepare_maximumDelayInSamples]
      simp only [prepare_fields]
      norm_num [Bounce.Bounce, truncToInt]
      linarith
    · rw [(setHeight_wet _ _ _ _).1, setHeight_delayMS]
      simp only [prepare_fields]
      norm_num [Bounce.Bounce]
      linarith
    · rw [(setHeight_wet _ _ _ _).1, setHeight_delayMS, (setHeight_wet _ _ _ _).2,
        prepare_maximumDelayInSamples]
      simp only [prepare_fields]
      norm_num [Bounce.Bounce, truncToInt]
      linarith
  · refine ⟨⟨?_, ?_⟩, ?_, ?_⟩
    · rw [(setHeight_wet _ _ _ _).1, setHeight_delayMS]
      simp only [prepare_fields]
      norm_num [Bounce.Bounce]
      linarith
    · rw [(setHeight_wet _ _ _ _).1, setHeight_delayMS, (setHeight_wet _ _ _ _).2,
        prepare_maximumDelayInSamples]
      simp only [prepare_fields]
      norm_num [Bounce.Bounce, truncToInt]
      linarith
    · rw [(setHeight_wet _ _ _ _).1, setHeight_delayMS]
      simp only [prepare_fields]
      norm_num [Bounce.Bounce]
      linarith
    · rw [(setHeight_wet _ _ _ _).1, setHeight_delayMS, (setHeight_wet _ _ _ _).2,
        prepare_maximumDelayInSamples]
      simp only [prepare_fields]
      norm_num [Bounce.Bounce, truncToInt]
      linarith

/-! ## The claims -/

/-- C1: with a bypassed context `Bounce::popSamples` leaves the output block equal
to the input block, for every channel count and block size, whatever the wet
buffer and `bounceVolume` of the reflection hold. -/
theorem C1_popSamples_bypassed [LinearOrderedField K] (numChannels numSamples : Nat)
    (b : Bounce K S) (context : ProcessContext K) (hbyp : context.isBypassed = true)
    (hin : IsBlock numChannels numSamples context.inputBlock)
    (hout : IsBlock numChannels numSamples context.outputBlock) :
    b.popSamples context = context.inputBlock := by
  unfold Bounce.popSamples
  simp only [hbyp, if_true]
  unfold AudioBlock.copyFrom
  obtain ⟨k1, k2⟩ := nested_loop_spec
    (fun _ c s => getSample context.inputBlock c s)
    (min (getNumChannels context.inputBlock) (getNumChannels context.outputBlock))
    (min (getNumSamples context.inputBlock) (getNumSamples context.outputBlock)) hout
  apply block_ext k1 hin
  intro c s hc hs
  rw [k2 c s hc hs]
  have h1 : getNumChannels context.inputBlock = numChannels := hin.1
  have h2 : getNumChannels context.outputBlock = numChannels := hout.1
  have h3 := getNumSamples_of_isBlock hin (by omega)
  have h4 := getNumSamples_of_isBlock hout (by omega)
  rw [h1, h2, h3, h4, if_pos ⟨by simpa using hc, by simpa using hs⟩]

/-- C1 at a concrete input: a bypassed two-channel, three-sample context over a
reflection with gain 1/2 and a non-zero wet buffer. -/
theorem C1_popSamples_bypassed_witness :
    ({ Bounce.Bounce (toyJuce ℚ) 10.3 0.1 44100 with
        bounceVolume := 1 / 2, wetBuffer := [[9, 9, 9], [9, 9, 9]] } : Bounce ℚ (ℚ × ℚ)).popSamples
        { inputBlock := [[1, 2, 3], [4, 5, 6]], outputBlock := [[0, 0, 0], [7, 7, 7]],
          isBypassed := true, usesSeparateInputAndOutputBlocks := true }
      = [[1, 2, 3], [4, 5, 6]] :=
  C1_popSamples_bypassed 2 3 _ _ rfl (by simp [IsBlock]) (by simp [IsBlock])

/-- C2: `Bounce::setHeight (h, invertDirection)` sets
`delayMS = direction * h * (defaultDelayMS - minDelayMS) + defaultDelayMS` with
direction -1 when `invertDirection` holds and +1 otherwise; at `h = 0` the delay is
`defaultDelayMS` for both directions. -/
theorem C2_setHeight_delay [LinearOrderedField K] (pow10 : K → K) (b : Bounce K S) (h : K)
    (invertDirection : Bool) :
    (b.setHeight pow10 h invertDirection).delayMS
        = (if invertDirection then -1 else 1) * h * (b.defaultDelayMS - b.minDelayMS)
          + b.defaultDelayMS ∧
      (b.setHeight pow10 0 invertDirection).delayMS = b.defaultDelayMS := by
  constructor
  · exact setHeight_delayMS pow10 b h invertDirection
  · rw [setHeight_delayMS]; simp

/-- C3 as stated fails at `h = 1`: the level is -106 dB, at or below the -100 dB
floor of `decibelsToGain`, so the wet gain is exactly 0; it is neither strictly
positive nor equal to `10 ^ (-106 / 20)`. -/
theorem C3_gain_zero_at_height_one :
    (-1 : ℝ) ≤ 1 ∧ (1 : ℝ) ≤ 1 ∧
      ((Bounce.Bounce (toyJuce ℝ) 10.3 0.1 44100).setHeight (fun x : ℝ => (10 : ℝ) ^ x) 1
          false).bounceVolume = 0 ∧
      ((Bounce.Bounce (toyJuce ℝ) 10.3 0.1 44100).setHeight (fun x : ℝ => (10 : ℝ) ^ x) 1
          false).bounceVolume ≠ (10 : ℝ) ^ ((-50 * ((1 : ℝ) + 1) - 6) / 20) ∧
      ¬ 0 < ((Bounce.Bounce (toyJuce ℝ) 10.3 0.1 44100).setHeight (fun x : ℝ => (10 : ℝ) ^ x) 1
          false).bounceVolume := by
  have h0 : ((Bounce.Bounce (toyJuce ℝ) 10.3 0.1 44100).setHeight
      (fun x : ℝ => (10 : ℝ) ^ x) 1 false).bounceVolume = 0 := by
    rw [setHeight_bounceVolume, decibelsToGain_real]
    norm_num
  refine ⟨by norm_num, le_refl _, h0, ?_, ?_⟩
  · rw [h0]
    exact (Real.rpow_pos_of_pos (by norm_num) _).ne
  · rw [h0]; exact lt_irrefl _

/-- C3 amended: after `Bounce::setHeight (h, ·)` the wet gain equals
`10 ^ ((-50 * (h + 1) - 6) / 20)` and is strictly positive when `h < 0.88`, and is
exactly 0 when `0.88 ≤ h` (in particular at `h = 1`); at `h = 0` it equals
`10 ^ (-56 / 20)`. -/
theorem C3_gain_with_floor (b : Bounce ℝ S) (h : ℝ) (fa : Bool) :
    (h < 0.88 →
      (b.setHeight (fun x : ℝ => (10 : ℝ) ^ x) h fa).bounceVolume
          = (10 : ℝ) ^ ((-50 * (h + 1) - 6) / 20) ∧
        0 < (b.setHeight (fun x : ℝ => (10 : ℝ) ^ x) h fa).bounceVolume) ∧
      (0.88 ≤ h → (b.setHeight (fun x : ℝ => (10 : ℝ) ^ x) h fa).bounceVolume = 0) ∧
      (b.setHeight (fun x : ℝ => (10 : ℝ) ^ x) 0 fa).bounceVolume
        = (10 : ℝ) ^ ((-56 : ℝ) / 20) := by
  rw [setHeight_bounceVolume, setHeight_bounceVolume, decibelsToGain_real, decibelsToGain_real]
  refine ⟨?_, ?_, ?_⟩
  · intro hlt
    rw [if_pos hlt]
    exact ⟨rfl, Real.rpow_pos_of_pos (by norm_num) _⟩
  · intro hge
    rw [if_neg (not_lt.mpr hge)]
  · rw [if_pos (by norm_num)]
    norm_num

/-- C3 amended at concrete heights: the gain at `h = 1 / 2` is the positive power
of ten, the gain at `h = 9 / 10` is 0. -/
theorem C3_gain_with_floor_witness :
    (((Bounce.Bounce (toyJuce ℝ) 10.3 0.1 44100).setHeight (fun x : ℝ => (10 : ℝ) ^ x)
          (1 / 2) false).bounceVolume = (10 : ℝ) ^ ((-50 * ((1 / 2 : ℝ) + 1) - 6) / 20) ∧
        0 < ((Bounce.Bounce (toyJuce ℝ) 10.3 0.1 44100).setHeight (fun x : ℝ => (10 : ℝ) ^ x)
          (1 / 2) false).bounceVolume) ∧
      ((Bounce.Bounce (toyJuce ℝ) 10.3 0.1 44100).setHeight (fun x : ℝ => (10 : ℝ) ^ x)
          (9 / 10) true).bounceVolume = 0 :=
  ⟨(C3_gain_with_floor (Bounce.Bounce (toyJuce ℝ) 10.3 0.1 44100) (1 / 2) false).1
      (by norm_num),
    (C3_gain_with_floor (Bounce.Bounce (toyJuce ℝ) 10.3 0.1 44100) (9 / 10) true).2.1
      (by norm_num)⟩

/-- C4: for heights `h1 ≤ h2` the wet gain set by `Bounce::setHeight (h2, ·)` is at
most the wet gain set by `Bounce::setHeight (h1, ·)`, for every reflection and
both values of the direction flag. -/
theorem C4_gain_antitone (b1 b2 : Bounce ℝ S) (h1 h2 : ℝ) (fa1 fa2 : Bool) (hle : h1 ≤ h2) :
    (b2.setHeight (fun x : ℝ => (10 : ℝ) ^ x) h2 fa2).bounceVolume
      ≤ (b1.setHeight (fun x : ℝ => (10 : ℝ) ^ x) h1 fa1).bounceVolume := by
  rw [setHeight_bounceVolume, setHeight_bounceVolume, decibelsToGain_real, decibelsToGain_real]
  by_cases hc : h2 < 0.88
  · have hc1 : h1 < 0.88 := lt_of_le_of_lt hle hc
    rw [if_pos hc, if_pos hc1]
    apply Real.rpow_le_rpow_of_exponent_le (by norm_num)
    linarith
  · rw [if_neg hc]
    split_ifs
    · exact (Real.rpow_pos_of_pos (by norm_num) _).le
    · exact le_refl _

/-- C4 at the concrete heights -1 and 1 on the floor and chest configurations. -/
theorem C4_gain_antitone_witness :
    ((Bounce.Bounce (toyJuce ℝ) 2.0 0.0 44100).setHeight (fun x : ℝ => (10 : ℝ) ^ x) 1
        true).bounceVolume
      ≤ ((Bounce.Bounce (toyJuce ℝ) 10.3 0.1 44100).setHeight (fun x : ℝ => (10 : ℝ) ^ x) (-1)
        false).bounceVolume :=
  C4_gain_antitone _ _ (-1) 1 false true (by norm_num)

/-- C5 evaluated where it fails: the floor reflection constructed at 44100 Hz,
prepared at 44100 Hz and set to height 1 hands the delay line 904.05 samples
while `prepare` has set no capacity (it is still 0); a floor reflection
constructed at another rate and prepared at 44100 Hz gets the truncated
capacity 904, still below 904.05. -/
theorem C5_delay_exceeds_capacity_at_44100 [LinearOrderedField K] [FloorRing K]
    (pow10 : K → K) (J : Juce K S C F) (maximumBlockSize numChannels : Nat) :
    ((((Bounce.Bounce J 10.3 0.1 44100).prepare J
        ⟨44100, maximumBlockSize, numChannels⟩).setHeight pow10 1 false).wet.delay = 904.05 ∧
      (((Bounce.Bounce J 10.3 0.1 44100).prepare J
        ⟨44100, maximumBlockSize, numChannels⟩).setHeight pow10 1
          false).wet.maximumDelayInSamples = 0) ∧
    ((((Bounce.Bounce J 10.3 0.1 48000).prepare J
        ⟨44100, maximumBlockSize, numChannels⟩).setHeight pow10 1 false).wet.delay = 904.05 ∧
      (((Bounce.Bounce J 10.3 0.1 48000).prepare J
        ⟨44100, maximumBlockSize, numChannels⟩).setHeight pow10 1
          false).wet.maximumDelayInSamples = 904) ∧
    ¬ ((904.05 : K) ≤ ((904 : Int) : K)) := by
  refine ⟨⟨?_, ?_⟩, ⟨?_, ?_⟩, ?_⟩
  · rw [(setHeight_wet _ _ _ _).1, setHeight_delayMS]
    simp only [prepare_fields]
    norm_num [Bounce.Bounce]
  · rw [(setHeight_wet _ _ _ _).2, prepare_maximumDelayInSamples]
    simp [Bounce.Bounce, DelayLine.new]
  · rw [(setHeight_wet _ _ _ _).1, setHeight_delayMS]
    simp only [prepare_fields]
    norm_num [Bounce.Bounce]
  · rw [(setHeight_wet _ _ _ _).2, prepare_maximumDelayInSamples]
    norm_num [Bounce.Bounce, DelayLine.new, truncToInt]
  · norm_num

/-- C6 evaluated where it fails: when the first `prepare` gets the sample rate the
reflection was constructed with, the delay line's maximum delay is not set (it
stays 0, not the 904 samples of 20.5 ms at 44100 Hz); with any other rate, as at
48000 Hz, it is set, and the wet buffer is sized in both cases. -/
theorem C6_prepare_skips_capacity_at_construction_rate [LinearOrderedField K] [FloorRing K]
    (J : Juce K S C F) (defaultDelay minDelay currSampleRate : K)
    (maximumBlockSize numChannels : Nat) :
    ((Bounce.Bounce J defaultDelay minDelay currSampleRate).prepare J
        ⟨currSampleRate, maximumBlockSize, numChannels⟩).wet.maximumDelayInSamples = 0 ∧
    truncToInt ((10.3 * 2 - 0.1 : K) * 0.001 * 44100) = 904 ∧
    ((Bounce.Bounce J 10.3 0.1 44100).prepare J
        ⟨44100, 512, 2⟩).wet.maximumDelayInSamples = 0 ∧
    ((Bounce.Bounce J 10.3 0.1 44100).prepare J
        ⟨48000, 512, 2⟩).wet.maximumDelayInSamples
      = truncToInt ((10.3 * 2 - 0.1 : K) * 0.001 * 48000) ∧
    ((Bounce.Bounce J 10.3 0.1 44100).prepare J ⟨44100, 512, 2⟩).wetBuffer
      = AudioBuffer.setSize 2 512 := by
  refine ⟨?_, ?_, ?_, ?_, ?_⟩
  · rw [prepare_maximumDelayInSamples]
    simp [Bounce.Bounce, DelayLine.new]
  · norm_num [truncToInt]
  · rw [prepare_maximumDelayInSamples]
    simp [Bounce.Bounce, DelayLine.new]
  · rw [prepare_maximumDelayInSamples]
    norm_num [Bounce.Bounce]
  · rw [prepare_wetBuffer]
    simp [Bounce.Bounce]

/-- C7 evaluated where it fails: right after construction the height is 0 and
each reflection's `delayMS` is its default, but both wet gains are 0, whereas
`SkilletAudioProcessor::setHeight` at height 0 sets both to `10 ^ (-56 / 20)`. -/
theorem C7_constructor_leaves_gain_zero (J : Juce ℝ S C F) :
    (SkilletAudioProcessor.SkilletAudioProcessor (fun x : ℝ => (10 : ℝ) ^ x) J).height = 0 ∧
    ((SkilletAudioProcessor.SkilletAudioProcessor (fun x : ℝ => (10 : ℝ) ^ x)
        J).floorBounce.delayMS = 10.3 ∧
      (SkilletAudioProcessor.SkilletAudioProcessor (fun x : ℝ => (10 : ℝ) ^ x)
        J).chestBounce.toBounce.delayMS = 2.0) ∧
    ((SkilletAudioProcessor.SkilletAudioProcessor (fun x : ℝ => (10 : ℝ) ^ x)
        J).floorBounce.bounceVolume = 0 ∧
      (SkilletAudioProcessor.SkilletAudioProcessor (fun x : ℝ => (10 : ℝ) ^ x)
        J).chestBounce.toBounce.bounceVolume = 0) ∧
    (((SkilletAudioProcessor.SkilletAudioProcessor (fun x : ℝ => (10 : ℝ) ^ x) J).setHeight
        (fun x : ℝ => (10 : ℝ) ^ x) J).floorBounce.bounceVolume = (10 : ℝ) ^ ((-56 : ℝ) / 20) ∧
      ((SkilletAudioProcessor.SkilletAudioProcessor (fun x : ℝ => (10 : ℝ) ^ x) J).setHeight
        (fun x : ℝ => (10 : ℝ) ^ x) J).chestBounce.toBounce.bounceVolume
          = (10 : ℝ) ^ ((-56 : ℝ) / 20)) ∧
    (0 : ℝ) ≠ (10 : ℝ) ^ ((-56 : ℝ) / 20) := by
  have hh : (SkilletAudioProcessor.SkilletAudioProcessor (fun x : ℝ => (10 : ℝ) ^ x)
      J).height = 0 := by
    norm_num [SkilletAudioProcessor.SkilletAudioProcessor, calcFilterCoefficients_bounces]
  have hg : decibelsToGain (fun x : ℝ => (10 : ℝ) ^ x) (-50.0 * ((0 : ℝ) + 1.0) - 6.0)
      = (10 : ℝ) ^ ((-56 : ℝ) / 20) := by
    rw [decibelsToGain_real, if_pos (by norm_num)]
    norm_num
  refine ⟨hh, ⟨?_, ?_⟩, ⟨?_, ?_⟩, ⟨?_, ?_⟩, ?_⟩
  · simp [SkilletAudioProcessor.SkilletAudioProcessor, calcFilterCoefficients_bounces,
      Bounce.Bounce]
  · simp [SkilletAudioProcessor.SkilletAudioProcessor, calcFilterCoefficients_bounces,
      Bounce.Bounce, FilteredBounce.FilteredBounce]
  · simp [SkilletAudioProcessor.SkilletAudioProcessor, calcFilterCoefficients_bounces,
      Bounce.Bounce]
  · simp [SkilletAudioProcessor.SkilletAudioProcessor, calcFilterCoefficients_bounces,
      Bounce.Bounce, FilteredBounce.FilteredBounce]
  · rw [(setHeight_fanout _ _ _).1, setHeight_bounceVolume, hh, hg]
  · rw [(setHeight_fanout _ _ _).2, setHeight_bounceVolume, hh, hg]
  · exact (Real.rpow_pos_of_pos (by norm_num) _).ne

/-- C8: `SkilletAudioProcessor::setHeight` gives the floor reflection the height
with the default direction and the chest reflection the same height with the
inverted direction; for `h1 < h2` the floor delay is strictly larger at `h2` and
the chest delay strictly smaller at `h2`; at heights 1 and -1 the floor delay is
20.5 ms and 0.1 ms, the chest delay 0 ms and 4 ms. -/
theorem C8_setHeight_opposite_directions [LinearOrderedField K] (pow10 : K → K)
    (J : Juce K S C F) (p : SkilletAudioProcessor K S C F)
    (hfd : p.floorBounce.defaultDelayMS = 10.3) (hfm : p.floorBounce.minDelayMS = 0.1)
    (hcd : p.chestBounce.toBounce.defaultDelayMS = 2.0)
    (hcm : p.chestBounce.toBounce.minDelayMS = 0.0)
    (h1 h2 : K) (hlt : h1 < h2) :
    (((p.withHeight h2).setHeight pow10 J).floorBounce
        = p.floorBounce.setHeight pow10 h2 false ∧
      ((p.withHeight h2).setHeight pow10 J).chestBounce.toBounce
        = p.chestBounce.toBounce.setHeight pow10 h2 true) ∧
    (((p.withHeight h1).setHeight pow10 J).floorBounce.delayMS
        < ((p.withHeight h2).setHeight pow10 J).floorBounce.delayMS ∧
      ((p.withHeight h2).setHeight pow10 J).chestBounce.toBounce.delayMS
        < ((p.withHeight h1).setHeight pow10 J).chestBounce.toBounce.delayMS) ∧
    (((p.withHeight 1).setHeight pow10 J).floorBounce.delayMS = 20.5 ∧
      ((p.withHeight (-1)).setHeight pow10 J).floorBounce.delayMS = 0.1 ∧
      ((p.withHeight 1).setHeight pow10 J).chestBounce.toBounce.delayMS = 0 ∧
      ((p.withHeight (-1)).setHeight pow10 J).chestBounce.toBounce.delayMS = 4) := by
  have e : ∀ h : K, ((p.withHeight h).setHeight pow10 J).floorBounce
        = p.floorBounce.setHeight pow10 h false ∧
      ((p.withHeight h).setHeight pow10 J).chestBounce.toBounce
        = p.chestBounce.toBounce.setHeight pow10 h true := by
    intro h
    have := setHeight_fanout pow10 J (p.withHeight h)
    simpa [SkilletAudioProcessor.withHeight] using this
  refine ⟨e h2, ⟨?_, ?_⟩, ?_, ?_, ?_, ?_⟩
  · rw [(e h1).1, (e h2).1, setHeight_delayMS, setHeight_delayMS, hfd, hfm]
    norm_num
    linarith
  · rw [(e h1).2, (e h2).2, setHeight_delayMS, setHeight_delayMS, hcd, hcm]
    norm_num
    linarith
  · rw [(e 1).1, setHeight_delayMS, hfd, hfm]; norm_num
  · rw [(e (-1)).1, setHeight_delayMS, hfd, hfm]; norm_num
  · rw [(e 1).2, setHeight_delayMS, hcd, hcm]; norm_num
  · rw [(e (-1)).2, setHeight_delayMS, hcd, hcm]; norm_num

/-- C8 on the constructed engine at the heights -1 and 1. -/
theorem C8_setHeight_opposite_directions_witness :
    (((SkilletAudioProcessor.SkilletAudioProcessor id (toyJuce ℚ)).withHeight (-1)).setHeight id
          (toyJuce ℚ)).floorBounce.delayMS
        < (((SkilletAudioProcessor.SkilletAudioProcessor id (toyJuce ℚ)).withHeight 1).setHeight id
          (toyJuce ℚ)).floorBounce.delayMS ∧
      (((SkilletAudioProcessor.SkilletAudioProcessor id (toyJuce ℚ)).withHeight 1).setHeight id
          (toyJuce ℚ)).chestBounce.toBounce.delayMS
        < (((SkilletAudioProcessor.SkilletAudioProcessor id (toyJuce ℚ)).withHeight (-1)).setHeight
          id (toyJuce ℚ)).chestBounce.toBounce.delayMS :=
  (C8_setHeight_opposite_directions id (toyJuce ℚ)
    (SkilletAudioProcessor.SkilletAudioProcessor id (toyJuce ℚ))
    rfl rfl rfl rfl (-1) 1 (by norm_num)).2.1

/-- C9 as stated fails: on the wet buffer `[[1]]`, with a low-pass stage that
doubles and a high-pass stage that adds one, `FilteredBounce::filter` yields
`[[3]]` (low-pass first), not the `[[4]]` of high-pass first, low-pass second. -/
theorem C9_filter_not_highpass_first :
    (exampleChest.filter (toyJuce ℚ)).toBounce.wetBuffer = [[3]] ∧
      (exampleChest.lpf.process (toyJuce ℚ)
        (exampleChest.hpf.process (toyJuce ℚ) exampleChest.toBounce.wetBuffer).2).2 = [[4]] ∧
      (exampleChest.filter (toyJuce ℚ)).toBounce.wetBuffer ≠
        (exampleChest.lpf.process (toyJuce ℚ)
          (exampleChest.hpf.process (toyJuce ℚ) exampleChest.toBounce.wetBuffer).2).2 := by
  have h1 : (exampleChest.filter (toyJuce ℚ)).toBounce.wetBuffer = [[3]] := by
    norm_num [FilteredBounce.filter, exampleChest, FilteredBounce.FilteredBounce, Bounce.Bounce,
      Duplicator.process, toyJuce]
  have h2 : (exampleChest.lpf.process (toyJuce ℚ)
        (exampleChest.hpf.process (toyJuce ℚ) exampleChest.toBounce.wetBuffer).2).2 = [[4]] := by
    norm_num [exampleChest, FilteredBounce.FilteredBounce, Bounce.Bounce,
      Duplicator.process, toyJuce]
  refine ⟨h1, h2, ?_⟩
  rw [h1, h2]
  decide

/-- C9 amended: `FilteredBounce::filter` replaces the wet buffer with the result of
the low-pass filter first and the high-pass filter second,
`wet = highpass (lowpass (wet))`, each filter keeping the memory its own stage
produced; the filters are arbitrary stateful block operators. -/
theorem C9_filter_lowpass_then_highpass (J : Juce K S C F) (fb : FilteredBounce K S C F) :
    (fb.filter J).toBounce.wetBuffer
        = (fb.hpf.process J (fb.lpf.process J fb.toBounce.wetBuffer).2).2 ∧
      (fb.filter J).lpf = (fb.lpf.process J fb.toBounce.wetBuffer).1 ∧
      (fb.filter J).hpf = (fb.hpf.process J (fb.lpf.process J fb.toBounce.wetBuffer).2).1 := by
  simp [FilteredBounce.filter]

/-- C10: `SkilletAudioProcessor::processBlock` runs pinna band 0, band 1, band 2,
then both captures from the pinna-filtered block `P`, then the chest filter,
then the floor mix and the chest mix: every output sample is
`P[ch][s] + floorGain * floorWet[ch][s] + chestGain * chestWetFiltered[ch][s]`,
where `floorWet` and `chestWet` are what `pushSamples` captures from `P` and
`chestWetFiltered` is `chestWet` after the chest filter stages. -/
theorem C10_processBlock_pipeline [LinearOrderedField K] (J : Juce K S C F)
    (p : SkilletAudioProcessor K S C F)
    (buffer : AudioBlock K) (band0 band1 band2 : PinnaBand K C F)
    (hbands : p.pFilter = [band0, band1, band2])
    (P floorWet chestWet chestWetFiltered : AudioBlock K)
    (hP : P = (band2.filter.process J (band1.filter.process J (band0.filter.process J
      (clearExtraChannels p.totalNumInputChannels p.totalNumOutputChannels buffer)).2).2).2)
    (hfloorWet : floorWet = (p.floorBounce.pushSamples J (ProcessContextReplacing P)).wetBuffer)
    (hchestWet : chestWet
      = (p.chestBounce.toBounce.pushSamples J (ProcessContextReplacing P)).wetBuffer)
    (hfiltered : chestWetFiltered
      = (FilteredBounce.filter J { p.chestBounce with
          toBounce := { p.chestBounce.toBounce with wetBuffer := chestWet } }).toBounce.wetBuffer)
    (numChannels numSamples : Nat) (hdim : IsBlock numChannels numSamples P) :
    IsBlock numChannels numSamples (p.processBlock J buffer).2 ∧
    (p.processBlock J buffer).1.floorBounce.wetBuffer = floorWet ∧
    (p.processBlock J buffer).1.chestBounce.toBounce.wetBuffer = chestWetFiltered ∧
    ∀ ch s, ch < numChannels → s < numSamples →
      getSample (p.processBlock J buffer).2 ch s
        = getSample P ch s + p.floorBounce.bounceVolume * getSample floorWet ch s
          + p.chestBounce.toBounce.bounceVolume * getSample chestWetFiltered ch s := by
  have hP2 : (processPinna J p.pFilter
      (clearExtraChannels p.totalNumInputChannels p.totalNumOutputChannels buffer)).2 = P := by
    rw [hbands, processPinna_three, hP]
  unfold SkilletAudioProcessor.processBlock
  simp only [hP2]
  obtain ⟨f1, f2⟩ := popSamples_replacing
    (p.floorBounce.pushSamples J (ProcessContextReplacing P)) hdim
  obtain ⟨c1, c2⟩ := popSamples_replacing
    (FilteredBounce.filter J { p.chestBounce with
      toBounce := p.chestBounce.toBounce.pushSamples J (ProcessContextReplacing P) }).toBounce f1
  have hw : (FilteredBounce.filter J { p.chestBounce with
      toBounce := p.chestBounce.toBounce.pushSamples J
        (ProcessContextReplacing P) }).toBounce.wetBuffer = chestWetFiltered := by
    rw [hfiltered, hchestWet]
    simp [FilteredBounce.filter]
  have hv : (FilteredBounce.filter J { p.chestBounce with
      toBounce := p.chestBounce.toBounce.pushSamples J
        (ProcessContextReplacing P) }).toBounce.bounceVolume
      = p.chestBounce.toBounce.bounceVolume := by
    simp [FilteredBounce.filter, pushSamples_bounceVolume]
  refine ⟨c1, hfloorWet.symm, hw, ?_⟩
  intro ch s hch hs
  rw [c2 ch s hch hs, f2 ch s hch hs, hw, hv, pushSamples_bounceVolume, ← hfloorWet]

/-- C10 on the prepared example engine and the block `[[1, 2], [3, 4]]`: the
pinna stages give `[[6, 8], [10, 12]]`, both reflections capture
`[[0, 6], [8, 10]]`, the chest filter turns its capture into
`[[1, 13], [17, 21]]`, both gains are 1/2 and the output sample of channel 1 at
position 1 is `12 + 1/2 * 10 + 1/2 * 21`. -/
theorem C10_processBlock_pipeline_witness :
    (exampleProcessor.floorBounce.bounceVolume = 1 / 2 ∧
      exampleProcessor.chestBounce.toBounce.bounceVolume = 1 / 2) ∧
    getSample (exampleProcessor.processBlock (toyJuce ℚ) [[1, 2], [3, 4]]).2 1 1
      = getSample [[6, 8], [10, 12]] 1 1
        + exampleProcessor.floorBounce.bounceVolume * getSample [[0, 6], [8, 10]] 1 1
        + exampleProcessor.chestBounce.toBounce.bounceVolume
            * getSample [[1, 13], [17, 21]] 1 1 :=
  ⟨⟨by norm_num [exampleProcessor, examplePow10, SkilletAudioProcessor.prepareToPlay,
      SkilletAudioProcessor.setHeight, SkilletAudioProcessor.SkilletAudioProcessor,
      SkilletAudioProcessor.calcFilterCoefficients, PinnaBand.init, Bounce.Bounce,
      FilteredBounce.FilteredBounce, FilteredBounce.prepare, FilteredBounce.filter,
      Bounce.prepare, Bounce.setHeight, Bounce.pushSamples, clearExtraChannels,
      Duplicator.process, Duplicator.prepare, DelayLine.new, DelayLine.setDelay,
      DelayLine.prepare, DelayLine.pushSample, DelayLine.popSample,
      DelayLine.setMaximumDelayInSamples, decibelsToGain, defaultMinusInfinitydB, toyJuce,
      ProcessContextReplacing, getNumChannels, getNumSamples, getSample, setSample,
      AudioBuffer.setSize, range_two, List.modify, List.modifyHead, Bounce.calcNumSamples,
      Bounce.getMaxDelaySamples, truncToInt, List.replicate],
    by norm_num [exampleProcessor, examplePow10, SkilletAudioProcessor.prepareToPlay,
      SkilletAudioProcessor.setHeight, SkilletAudioProcessor.SkilletAudioProcessor,
      SkilletAudioProcessor.calcFilterCoefficients, PinnaBand.init, Bounce.Bounce,
      FilteredBounce.FilteredBounce, FilteredBounce.prepare, FilteredBounce.filter,
      Bounce.prepare, Bounce.setHeight, Bounce.pushSamples, clearExtraChannels,
      Duplicator.process, Duplicator.prepare, DelayLine.new, DelayLine.setDelay,
      DelayLine.prepare, DelayLine.pushSample, DelayLine.popSample,
      DelayLine.setMaximumDelayInSamples, decibelsToGain, defaultMinusInfinitydB, toyJuce,
      ProcessContextReplacing, getNumChannels, getNumSamples, getSample, setSample,
      AudioBuffer.setSize, range_two, List.modify, List.modifyHead, Bounce.calcNumSamples,
      Bounce.getMaxDelaySamples, truncToInt, List.replicate]⟩,
  (C10_processBlock_pipeline (toyJuce ℚ) exampleProcessor [[1, 2], [3, 4]] _ _ _ rfl
    [[6, 8], [10, 12]] [[0, 6], [8, 10]] [[0, 6], [8, 10]] [[1, 13], [17, 21]]
    (by norm_num [exampleProcessor, examplePow10, SkilletAudioProcessor.prepareToPlay,
      SkilletAudioProcessor.setHeight, SkilletAudioProcessor.SkilletAudioProcessor,
      SkilletAudioProcessor.calcFilterCoefficients, PinnaBand.init, Bounce.Bounce,
      FilteredBounce.FilteredBounce, FilteredBounce.prepare, FilteredBounce.filter,
      Bounce.prepare, Bounce.setHeight, Bounce.pushSamples, clearExtraChannels,
      Duplicator.process, Duplicator.prepare, DelayLine.new, DelayLine.setDelay,
      DelayLine.prepare, DelayLine.pushSample, DelayLine.popSample,
      DelayLine.setMaximumDelayInSamples, decibelsToGain, defaultMinusInfinitydB, toyJuce,
      ProcessContextReplacing, getNumChannels, getNumSamples, getSample, setSample,
      AudioBuffer.setSize, range_two, List.modify, List.modifyHead, Bounce.calcNumSamples,
      Bounce.getMaxDelaySamples, truncToInt, List.replicate])
    (by norm_num [exampleProcessor, examplePow10, SkilletAudioProcessor.prepareToPlay,
      SkilletAudioProcessor.setHeight, SkilletAudioProcessor.SkilletAudioProcessor,
      SkilletAudioProcessor.calcFilterCoefficients, PinnaBand.init, Bounce.Bounce,
      FilteredBounce.FilteredBounce, FilteredBounce.prepare, FilteredBounce.filter,
      Bounce.prepare, Bounce.setHeight, Bounce.pushSamples, clearExtraChannels,
      Duplicator.process, Duplicator.prepare, DelayLine.new, DelayLine.setDelay,
      DelayLine.prepare, DelayLine.pushSample, DelayLine.popSample,
      DelayLine.setMaximumDelayInSamples, decibelsToGain, defaultMinusInfinitydB, toyJuce,
      ProcessContextReplacing, getNumChannels, getNumSamples, getSample, setSample,
      AudioBuffer.setSize, range_two, List.modify, List.modifyHead, Bounce.calcNumSamples,
      Bounce.getMaxDelaySamples, truncToInt, List.replicate])
    (by norm_num [exampleProcessor, examplePow10, SkilletAudioProcessor.prepareToPlay,
      SkilletAudioProcessor.setHeight, SkilletAudioProcessor.SkilletAudioProcessor,
      SkilletAudioProcessor.calcFilterCoefficients, PinnaBand.init, Bounce.Bounce,
      FilteredBounce.FilteredBounce, FilteredBounce.prepare, FilteredBounce.filter,
      Bounce.prepare, Bounce.setHeight, Bounce.pushSamples, clearExtraChannels,
      Duplicator.process, Duplicator.prepare, DelayLine.new, DelayLine.setDelay,
      DelayLine.prepare, DelayLine.pushSample, DelayLine.popSample,
      DelayLine.setMaximumDelayInSamples, decibelsToGain, defaultMinusInfinitydB, toyJuce,
      ProcessContextReplacing, getNumChannels, getNumSamples, getSample, setSample,
      AudioBuffer.setSize, range_two, List.modify, List.modifyHead, Bounce.calcNumSamples,
      Bounce.getMaxDelaySamples, truncToInt, List.replicate])
    (by norm_num [exampleProcessor, examplePow10, SkilletAudioProcessor.prepareToPlay,
      SkilletAudioProcessor.setHeight, SkilletAudioProcessor.SkilletAudioProcessor,
      SkilletAudioProcessor.calcFilterCoefficients, PinnaBand.init, Bounce.Bounce,
      FilteredBounce.FilteredBounce, FilteredBounce.prepare, FilteredBounce.filter,
      Bounce.prepare, Bounce.setHeight, Bounce.pushSamples, clearExtraChannels,
      Duplicator.process, Duplicator.prepare, DelayLine.new, DelayLine.setDelay,
      DelayLine.prepare, DelayLine.pushSample, DelayLine.popSample,
      DelayLine.setMaximumDelayInSamples, decibelsToGain, defaultMinusInfinitydB, toyJuce,
      ProcessContextReplacing, getNumChannels, getNumSamples, getSample, setSample,
      AudioBuffer.setSize, range_two, List.modify, List.modifyHead, Bounce.calcNumSamples,
      Bounce.getMaxDelaySamples, truncToInt, List.replicate])
    2 2 (by simp [IsBlock])).2.2.2 1 1 (by decide) (by decide)⟩

end Skillet
